import Mathlib

/-!
# Auto-CRUD route generator

A shallow embedding of `src/autocrud-handler-generator.js`.

* JavaScript objects that carry data (request body, query filters, records) are
  association lists from property names to values. A method called on such an
  object is looked up among its own properties first, so `data.hasOwnProperty(...)`
  throws a TypeError on a body that has an own key named `hasOwnProperty`.
* A request handler `function(req, res)` is a state transformer on the `World`,
  the ordered log of everything the handler did: calls on the storage model
  (`find`, `findOne`, `findById`, `save`, `remove`), calls on the response object
  (`status`, `send`, `sendStatus`, `json`), console output and uncaught exceptions.
* The storage model answers each call through a callback `(err, result)`; the
  `Model` record holds, for every storage call, the pair handed to that callback.
* `mongoose.Types.ObjectId` belongs to a library outside the repository and is a
  parameter (`Mongoose`).
-/

namespace AutoCrud

/-! ## Values and objects -/

/-- Scalar JavaScript values stored in object properties. -/
inductive Val where
  | undefined
  | null
  | bool (b : Bool)
  | num (n : Int)
  | str (s : String)
  deriving DecidableEq, Repr

/-- A data object: its own enumerable properties, in insertion order. -/
abbrev Obj := List (String × Val)

/-- The built-in `Object.prototype.hasOwnProperty`: whether `k` is an own key of `o`. -/
def hasOwnProperty (o : Obj) (k : String) : Bool :=
  o.any (fun p => p.1 == k)

/-- The method call `data.hasOwnProperty(property)` of source line 289. The method is
looked up on `data` first: an own property named `hasOwnProperty` shadows the
built-in, and since a data value is never a function the call then throws a
TypeError. Otherwise the built-in answers. -/
def dataHasOwnProperty (data : Obj) (property : String) : Except String Bool :=
  if hasOwnProperty data "hasOwnProperty" then
    Except.error "data.hasOwnProperty is not a function"
  else Except.ok (hasOwnProperty data property)

/-- The read `o[k]`: the value of the property, `undefined` when it is missing. -/
def getProp : Obj → String → Val
  | [], _ => Val.undefined
  | (k', v) :: rest, k => if k' == k then v else getProp rest k

/-- The assignment `o[k] = v`: overwrite in place, or add a new last property. -/
def setProp : Obj → String → Val → Obj
  | [], k, v => [(k, v)]
  | (k', v') :: rest, k, v => if k' == k then (k, v) :: rest else (k', v') :: setProp rest k v

/-- The call `Object.keys(o)`. -/
def objectKeys (o : Obj) : List String :=
  o.map (fun p => p.1)

/-- A path parameter read from `req.params`, as a JavaScript value. -/
def Val.ofParam : Option String → Val
  | none => Val.undefined
  | some s => Val.str s

/-- JavaScript truthiness of a path parameter: a non-empty string. -/
def truthy : Option String → Bool
  | none => false
  | some s => s != ""

/-! ## Requests, responses, storage -/

/-- An error object handed to a storage callback. -/
structure Err where
  code : Val
  message : String
  deriving DecidableEq, Repr

/-- What a response body is made of. -/
inductive Body where
  | text (s : String)
  | error (e : Err)
  | items (ds : List Obj)
  | item (d : Option Obj)
  | stringified (d : Obj)
  deriving DecidableEq, Repr

/-- The field projection argument of the read routes (`undefined` when omitted). -/
abbrev Projection := Option String

/-- One observable action of a handler. -/
inductive Event where
  | find (query : Obj) (fields : Projection)
  | findOne (query : Obj) (fields : Projection)
  | findById (id : Option String)
  | save (inst : Obj)
  | remove (query : Obj)
  | status (code : Nat)
  | send (body : Body)
  | sendStatus (code : Nat)
  | json (body : Body)
  | consoleLog (line : String)
  | throwTypeError (what : String)
  deriving DecidableEq, Repr

/-- The ordered log of what has happened so far. -/
abbrev World := List Event

/-- The express request: path parameters and parsed body. -/
structure Req where
  params : List (String × String)
  body : Obj
  deriving DecidableEq, Repr

/-- A request handler `function(req, res)`. -/
abbrev Handler := Req → World → World

/-- The mongoose model: schema paths, the blank record `new model()`, and the
`(err, result)` pair each storage call hands to its callback. -/
structure Model where
  paths : List String
  blank : Obj
  find : Obj → Projection → Option Err × List Obj
  findOne : Obj → Projection → Option Err × Option Obj
  findById : Option String → Option Err × Option Obj
  save : Obj → Option Err × Obj
  remove : Obj → Option Err × Nat

/-- The part of the mongoose library the generator calls: `ObjectId v` is `true`
when `mongoose.Types.ObjectId(v)` returns and `false` when it throws. -/
structure Mongoose where
  ObjectId : Option String → Bool

/-- The `filter` argument of a registration: omitted, a middleware function
`function(req, res, callback)` (a `callback` that was not passed is `none`), or an
array of field names. -/
inductive FilterArg where
  | undefined
  | fn (f : Req → Option Handler → World → World)
  | array (fields : List String)

/-- The test `filter ? a : b`. -/
def FilterArg.truthy : FilterArg → Bool
  | FilterArg.undefined => false
  | _ => true

/-- The call `filter(req, res, callback)`; calling something that is not a function
throws a TypeError. -/
def callFilter (filter : FilterArg) (req : Req) (callback : Option Handler) (w : World) : World :=
  match filter with
  | FilterArg.fn f => f req callback w
  | _ => w ++ [Event.throwTypeError "filter is not a function"]

/-- The middleware of the header comment:
`function(req, res, callback){ callback(req, res); }`. -/
def passThrough : Req → Option Handler → World → World :=
  fun req callback w =>
    match callback with
    | some h => h req w
    | none => w ++ [Event.throwTypeError "callback is not a function"]

/-! ## The router -/

/-- HTTP verbs the generator registers. -/
inductive Verb where
  | GET
  | POST
  | PUT
  | DELETE
  deriving DecidableEq, Repr

/-- One entry of the route table. -/
structure Route where
  verb : Verb
  path : String
  handler : Handler

/-- The express router: its route table, in registration order. -/
structure Router where
  routes : List Route

/-- The router `express.Router()` starts with. -/
def Router.empty : Router := ⟨[]⟩

/-- The registration `router.get(path, handler)`. -/
def Router.get (router : Router) (path : String) (h : Handler) : Router :=
  ⟨router.routes ++ [⟨Verb.GET, path, h⟩]⟩

/-- The registration `router.post(path, handler)`. -/
def Router.post (router : Router) (path : String) (h : Handler) : Router :=
  ⟨router.routes ++ [⟨Verb.POST, path, h⟩]⟩

/-- The registration `router.put(path, handler)`. -/
def Router.put (router : Router) (path : String) (h : Handler) : Router :=
  ⟨router.routes ++ [⟨Verb.PUT, path, h⟩]⟩

/-- The registration `router.delete(path, handler)`. -/
def Router.delete (router : Router) (path : String) (h : Handler) : Router :=
  ⟨router.routes ++ [⟨Verb.DELETE, path, h⟩]⟩

/-- The (verb, path) pairs of the route table. -/
def Router.keys (router : Router) : List (Verb × String) :=
  router.routes.map (fun r => (r.verb, r.path))

/-- Every registered route with the log its handler leaves for a request. -/
def Router.run (router : Router) (req : Req) (w : World) : List (Verb × String × World) :=
  router.routes.map (fun r => (r.verb, r.path, r.handler req w))

/-! ## Helpers of the generator (source lines 277-325) -/

/-- Source `filterByArray`: only logs the body keys (`// TODO implement filter`);
the request is left as it is. -/
def filterByArray (req : Req) (_filter : List String) (w : World) : World :=
  w ++ [Event.consoleLog ("filtering " ++ ",".intercalate (objectKeys req.body))]

/-- The `for ... in` loop of source `setPropertiesBySchema` over the remaining schema
paths: ask `data.hasOwnProperty(property)` and, on yes, assign the data value to the
instance. A throwing call ends the loop with the exception. -/
def setPropertiesLoop (data : Obj) : List String → Obj → Except String Obj
  | [], inst => Except.ok inst
  | property :: rest, inst =>
    match dataHasOwnProperty data property with
    | Except.error e => Except.error e
    | Except.ok true => setPropertiesLoop data rest (setProp inst property (getProp data property))
    | Except.ok false => setPropertiesLoop data rest inst

/-- Source `setPropertiesBySchema`: the loop over `model.schema.paths`; the result is
the instance after the loop, or the exception that left it. -/
def setPropertiesBySchema (model : Model) (inst : Obj) (data : Obj) : Except String Obj :=
  setPropertiesLoop data model.paths inst

/-- Source `getPath`. -/
def getPath (param : String) : String :=
  let path := ""
  let path := if "_id" != param then path ++ ("/" ++ param) else path
  path ++ ("/:" ++ param)

/-- Source `getValue`: the path parameter, or `null` when the key is `_id` and the
ObjectId constructor throws. -/
def getValue (mongoose : Mongoose) (req : Req) (param : String) : Option String :=
  let value := List.lookup param req.params
  if param == "_id" then
    if mongoose.ObjectId value then value else none
  else value

/-- Source `getQueryByParam`: `{param: value}` for a truthy value, else `undefined`. -/
def getQueryByParam (mongoose : Mongoose) (req : Req) (param : String) : Option Obj :=
  let value := getValue mongoose req param
  if truthy value then some [(param, Val.ofParam value)] else none

/-- Source `isFunction`. -/
def isFunction : FilterArg → Bool
  | FilterArg.fn _ => true
  | _ => false

/-! ## The five registrations -/

/-- Source `addGetAllRoute`, inner `handleRequest`. -/
def addGetAllRoute.handleRequest (model : Model) (fields : Projection) : Handler :=
  fun _req w =>
    let w := w ++ [Event.find [] fields]
    match model.find [] fields with
    | (some err, _) => w ++ [Event.status 500, Event.send (Body.error err)]
    | (none, items) => w ++ [Event.json (Body.items items)]

/-- Source `addGetAllRoute`, inner `filterAndHandleRequest`: the filter is called
with two arguments, `filter(req, res)`. -/
def addGetAllRoute.filterAndHandleRequest (filter : FilterArg) : Handler :=
  fun req w => callFilter filter req none w

/-- Source `addGetAllRoute`. -/
def addGetAllRoute (router : Router) (model : Model) (fields : Projection)
    (filter : FilterArg) : Router :=
  router.get "/"
    (if filter.truthy then addGetAllRoute.filterAndHandleRequest filter
     else addGetAllRoute.handleRequest model fields)

/-- Source `addGetRoute`, inner `handleRequest`. -/
def addGetRoute.handleRequest (mongoose : Mongoose) (model : Model) (param : String)
    (fields : Projection) : Handler :=
  fun req w =>
    match getQueryByParam mongoose req param with
    | some query =>
      let w := w ++ [Event.findOne query fields]
      match model.findOne query fields with
      | (some err, _) => w ++ [Event.status 500, Event.send (Body.error err)]
      | (none, items) => w ++ [Event.json (Body.item items)]
    | none => w ++ [Event.sendStatus 400]

/-- Source `addGetRoute`, inner `filterAndHandleRequest`. -/
def addGetRoute.filterAndHandleRequest (mongoose : Mongoose) (model : Model) (param : String)
    (fields : Projection) (filter : FilterArg) : Handler :=
  fun req w => callFilter filter req (some (addGetRoute.handleRequest mongoose model param fields)) w

/-- Source `addGetRoute`; an omitted or empty `param` becomes `_id`. -/
def addGetRoute (mongoose : Mongoose) (router : Router) (model : Model) (param : Option String)
    (fields : Projection) (filter : FilterArg) : Router :=
  let param := if truthy param then param.getD "" else "_id"
  let path := getPath param
  router.get path
    (if filter.truthy then addGetRoute.filterAndHandleRequest mongoose model param fields filter
     else addGetRoute.handleRequest mongoose model param fields)

/-- The callback of `instance.save` shared by POST and PUT (source lines 165-179 and
226-240). -/
def saveCallback (result : Option Err × Obj) (w : World) : World :=
  match result with
  | (some err, _) =>
    if err.code = Val.num 11000 then
      w ++ [Event.status 400, Event.send (Body.text "duplicate unique id")]
    else w ++ [Event.status 500, Event.send (Body.error err)]
  | (none, saved) => w ++ [Event.json (Body.stringified saved)]

/-- Source `addPostRoute`, inner `setPropertiesAndCreate`; an exception out of
`setPropertiesBySchema` leaves the handler before `save`. -/
def addPostRoute.setPropertiesAndCreate (model : Model) : Handler :=
  fun req w =>
    let inst := model.blank
    match setPropertiesBySchema model inst req.body with
    | Except.error e => w ++ [Event.throwTypeError e]
    | Except.ok inst => saveCallback (model.save inst) (w ++ [Event.save inst])

/-- Source `addPostRoute`. -/
def addPostRoute (router : Router) (model : Model) (filter : FilterArg) : Router :=
  let handlerFunction : Handler :=
    if isFunction filter then
      fun req w => callFilter filter req (some (addPostRoute.setPropertiesAndCreate model)) w
    else
      match filter with
      | FilterArg.array fields =>
        fun req w => addPostRoute.setPropertiesAndCreate model req (filterByArray req fields w)
      | _ => addPostRoute.setPropertiesAndCreate model
  router.post "/" handlerFunction

/-- Source `addPutRoute`, inner `setPropertiesAndSave`. -/
def addPutRoute.setPropertiesAndSave (model : Model) : Handler :=
  fun req w =>
    let id := List.lookup "_id" req.params
    let w := w ++ [Event.findById id]
    match model.findById id with
    | (some err, _) => w ++ [Event.status 500, Event.send (Body.error err)]
    | (none, none) => w ++ [Event.status 404]
    | (none, some inst) =>
      match setPropertiesBySchema model inst req.body with
      | Except.error e => w ++ [Event.throwTypeError e]
      | Except.ok inst => saveCallback (model.save inst) (w ++ [Event.save inst])

/-- Source `addPutRoute`. -/
def addPutRoute (router : Router) (model : Model) (filter : FilterArg) : Router :=
  let handlerFunction : Handler :=
    if isFunction filter then
      fun req w => callFilter filter req (some (addPutRoute.setPropertiesAndSave model)) w
    else
      match filter with
      | FilterArg.array fields =>
        fun req w => addPutRoute.setPropertiesAndSave model req (filterByArray req fields w)
      | _ => addPutRoute.setPropertiesAndSave model
  router.put "/:_id" handlerFunction

/-- Source `addDeleteRoute`, inner `handleRequest`. -/
def addDeleteRoute.handleRequest (model : Model) : Handler :=
  fun req w =>
    let id := List.lookup "_id" req.params
    if !truthy id then w ++ [Event.sendStatus 400]
    else
      let query : Obj := [("_id", Val.ofParam id)]
      let w := w ++ [Event.remove query]
      match model.remove query with
      | (some err, _) => w ++ [Event.status 500, Event.send (Body.error err)]
      | (none, n) => if n > 0 then w ++ [Event.sendStatus 200] else w ++ [Event.sendStatus 404]

/-- Source `addDeleteRoute`, inner `filterAndHandleRequest`. -/
def addDeleteRoute.filterAndHandleRequest (model : Model) (filter : FilterArg) : Handler :=
  fun req w => callFilter filter req (some (addDeleteRoute.handleRequest model)) w

/-- Source `addDeleteRoute`. -/
def addDeleteRoute (router : Router) (model : Model) (filter : FilterArg) : Router :=
  router.delete "/:_id"
    (if filter.truthy then addDeleteRoute.filterAndHandleRequest model filter
     else addDeleteRoute.handleRequest model)

/-- Source `addCRUDRoutes`: the five registrations, no projection, no filter. -/
def addCRUDRoutes (mongoose : Mongoose) (router : Router) (model : Model) : Router :=
  let router := addGetAllRoute router model none FilterArg.undefined
  let router := addGetRoute mongoose router model none none FilterArg.undefined
  let router := addPostRoute router model FilterArg.undefined
  let router := addPutRoute router model FilterArg.undefined
  addDeleteRoute router model FilterArg.undefined

/-- Source `defaultCRUDRouter`. -/
def defaultCRUDRouter (mongoose : Mongoose) (model : Model) : Router :=
  addCRUDRoutes mongoose Router.empty model

/-! ## Sample data -/

/-- A stand-in ObjectId check: the value is omitted or has 24 characters. -/
def sampleMongoose : Mongoose :=
  ⟨fun v => match v with
    | none => true
    | some s => s.length == 24⟩

/-- The `User` model of the end-to-end scenario over an empty collection that
accepts every save. -/
def sampleModel : Model where
  paths := ["username", "age"]
  blank := []
  find := fun _ _ => (none, [])
  findOne := fun _ _ => (none, none)
  findById := fun _ => (none, none)
  save := fun inst => (none, inst)
  remove := fun _ => (none, 0)

/-- The same model holding one stored record, found by every lookup. -/
def storedModel : Model where
  paths := ["username", "age"]
  blank := []
  find := fun _ _ => (none, [[("username", Val.str "bo")]])
  findOne := fun _ _ => (none, some [("username", Val.str "bo")])
  findById := fun _ => (none, some [("username", Val.str "bo")])
  save := fun inst => (none, inst)
  remove := fun _ => (none, 1)

/-- A model whose every save is rejected with the given error. -/
def rejectingModel (err : Err) : Model where
  paths := ["username", "age"]
  blank := []
  find := fun _ _ => (none, [])
  findOne := fun _ _ => (none, none)
  findById := fun _ => (none, some [("username", Val.str "bo")])
  save := fun inst => (some err, inst)
  remove := fun _ => (none, 0)

/-- A model with one stored record: saving a record that carries an `_id` is rejected
with the given error, creating a new one succeeds. -/
def updateRejectingModel (err : Err) : Model where
  paths := ["username", "age"]
  blank := []
  find := fun _ _ => (none, [])
  findOne := fun _ _ => (none, none)
  findById := fun _ =>
    (none, some [("_id", Val.str "57e92092d742a006e8b4d99a"), ("username", Val.str "bo")])
  save := fun inst => if hasOwnProperty inst "_id" then (some err, inst) else (none, inst)
  remove := fun _ => (none, 0)

/-- The request body of the end-to-end scenario, addressed to a 24 character id. -/
def sampleReq : Req where
  params := [("_id", "57e92092d742a006e8b4d99a")]
  body := [("username", Val.str "al"), ("age", Val.num 9), ("hacker", Val.bool true)]

/-- A JSON body with an own key named `hasOwnProperty` next to a schema field. -/
def shadowReq : Req where
  params := [("_id", "57e92092d742a006e8b4d99a")]
  body := [("hasOwnProperty", Val.num 1), ("username", Val.str "al")]

/-- Whether an event is a call on the storage model. -/
def isStorageCall : Event → Bool
  | Event.find _ _ => true
  | Event.findOne _ _ => true
  | Event.findById _ => true
  | Event.save _ => true
  | Event.remove _ => true
  | _ => false

/-- The storage calls recorded in a log. -/
def storageCalls (w : World) : List Event :=
  w.filter isStorageCall

/-! ## Objects: reading after writing -/

theorem getProp_setProp (o : Obj) (k j : String) (v : Val) :
    getProp (setProp o k v) j = if k = j then v else getProp o j := by
  induction o with
  | nil => simp [setProp, getProp]
  | cons p rest ih =>
    obtain ⟨k', v'⟩ := p
    by_cases hk : k' = k
    · subst hk
      by_cases hj : k' = j <;> simp [setProp, getProp, hj]
    · by_cases hj : k' = j
      · subst hj
        have hne : ¬ k = k' := fun h => hk h.symm
        simp [setProp, getProp, hk, hne]
      · simp [setProp, getProp, hk, hj, ih]

theorem hasOwnProperty_setProp (o : Obj) (k j : String) (v : Val) :
    hasOwnProperty (setProp o k v) j = (hasOwnProperty o j || k == j) := by
  induction o with
  | nil => simp [setProp, hasOwnProperty]
  | cons p rest ih =>
    obtain ⟨k', v'⟩ := p
    by_cases hk : k' = k
    · subst hk
      by_cases hj : k' = j <;> simp [setProp, hasOwnProperty, hj]
    · have hstep : hasOwnProperty ((k', v') :: setProp rest k v) j
          = (k' == j || hasOwnProperty (setProp rest k v) j) := by
        simp [hasOwnProperty]
      have hstep2 : hasOwnProperty ((k', v') :: rest) j
          = (k' == j || hasOwnProperty rest j) := by
        simp [hasOwnProperty]
      have hset : setProp ((k', v') :: rest) k v = (k', v') :: setProp rest k v := by
        simp [setProp, hk]
      rw [hset, hstep, hstep2, ih, Bool.or_assoc]

/-- The schema loop, one path list at a time: what a read of property `k` gives
afterwards. -/
theorem getProp_foldl_paths (data : Obj) (k : String) (paths : List String) (inst : Obj) :
    getProp (paths.foldl
      (fun acc property =>
        if hasOwnProperty data property then setProp acc property (getProp data property) else acc)
      inst) k
      = if k ∈ paths ∧ hasOwnProperty data k = true then getProp data k else getProp inst k := by
  induction paths generalizing inst with
  | nil => simp
  | cons p rest ih =>
    rw [List.foldl_cons, ih]
    by_cases hr : k ∈ rest ∧ hasOwnProperty data k = true
    · have : k ∈ p :: rest ∧ hasOwnProperty data k = true := ⟨List.mem_cons_of_mem _ hr.1, hr.2⟩
      simp [hr, this]
    · rw [if_neg hr]
      by_cases hp : p = k
      · subst hp
        by_cases hd : hasOwnProperty data p = true
        · simp [hd, getProp_setProp]
        · simp [hd]
      · have hkp : ¬ k = p := fun h => hp h.symm
        have hnot : ¬ (k ∈ p :: rest ∧ hasOwnProperty data k = true) := by
          rintro ⟨hm, hd⟩
          rcases List.mem_cons.mp hm with h | h
          · exact hkp h
          · exact hr ⟨h, hd⟩
        rw [if_neg hnot]
        by_cases hd : hasOwnProperty data p = true
        · simp [hd, getProp_setProp, hp]
        · simp [hd]

/-- The schema loop: which own properties the instance has afterwards. -/
theorem hasOwnProperty_foldl_paths (data : Obj) (k : String) (paths : List String) (inst : Obj) :
    hasOwnProperty (paths.foldl
      (fun acc property =>
        if hasOwnProperty data property then setProp acc property (getProp data property) else acc)
      inst) k
      = (hasOwnProperty inst k || (decide (k ∈ paths) && hasOwnProperty data k)) := by
  induction paths generalizing inst with
  | nil => simp
  | cons p rest ih =>
    rw [List.foldl_cons, ih]
    by_cases hp : p = k
    · subst hp
      by_cases hd : hasOwnProperty data p = true
      · simp [hd, hasOwnProperty_setProp]
      · simp [hd]
    · have hkp : ¬ k = p := fun h => hp h.symm
      have hb : (p == k) = false := beq_eq_false_iff_ne.mpr hp
      by_cases hd : hasOwnProperty data p = true
      · simp [hd, hasOwnProperty_setProp, hb, hkp]
      · simp [hd, hkp]

/-- For a body that does not shadow `hasOwnProperty` the loop never throws and is the
plain fold over the paths. -/
theorem setPropertiesLoop_plain (data : Obj) (hplain : hasOwnProperty data "hasOwnProperty" = false)
    (paths : List String) (inst : Obj) :
    setPropertiesLoop data paths inst
      = Except.ok (paths.foldl
          (fun acc property =>
            if hasOwnProperty data property then setProp acc property (getProp data property)
            else acc)
          inst) := by
  induction paths generalizing inst with
  | nil => rfl
  | cons p rest ih =>
    by_cases hd : hasOwnProperty data p = true
    · simp [setPropertiesLoop, dataHasOwnProperty, hplain, hd, ih]
    · have hf : hasOwnProperty data p = false := by simpa using hd
      simp [setPropertiesLoop, dataHasOwnProperty, hplain, hf, ih]

/-- For a body that shadows `hasOwnProperty` the loop throws at its first path. -/
theorem setPropertiesLoop_shadowed (data : Obj)
    (hshadow : hasOwnProperty data "hasOwnProperty" = true) (p : String) (rest : List String)
    (inst : Obj) :
    setPropertiesLoop data (p :: rest) inst
      = Except.error "data.hasOwnProperty is not a function" := by
  simp [setPropertiesLoop, dataHasOwnProperty, hshadow]

/-- The copy rule on bodies that do not shadow `hasOwnProperty`: the loop returns an
instance on which a property `k` reads as the body value when `k` is both a schema
path and an own key of the body, and as before otherwise; its own keys are the old
ones plus that intersection. -/
theorem setPropertiesBySchema_plain_body (model : Model) (inst data : Obj)
    (hplain : hasOwnProperty data "hasOwnProperty" = false) :
    ∃ out, setPropertiesBySchema model inst data = Except.ok out
      ∧ (∀ k, getProp out k
          = (if k ∈ model.paths ∧ hasOwnProperty data k = true then getProp data k
             else getProp inst k))
      ∧ (∀ k, hasOwnProperty out k
          = (hasOwnProperty inst k || (decide (k ∈ model.paths) && hasOwnProperty data k))) :=
  ⟨_, setPropertiesLoop_plain data hplain model.paths inst,
    fun k => getProp_foldl_paths data k model.paths inst,
    fun k => hasOwnProperty_foldl_paths data k model.paths inst⟩

/-! ## Middleware filters -/

/-- With the pass-through middleware, the routes of `addGetRoute`, `addPostRoute`,
`addPutRoute` and `addDeleteRoute` leave the same log as with no filter. -/
theorem passThrough_downstream_same (mongoose : Mongoose) (model : Model) (param : Option String)
    (fields : Projection) (req : Req) (w : World) :
    (addGetRoute mongoose Router.empty model param fields (FilterArg.fn passThrough)).run req w
        = (addGetRoute mongoose Router.empty model param fields FilterArg.undefined).run req w
    ∧ (addPostRoute Router.empty model (FilterArg.fn passThrough)).run req w
        = (addPostRoute Router.empty model FilterArg.undefined).run req w
    ∧ (addPutRoute Router.empty model (FilterArg.fn passThrough)).run req w
        = (addPutRoute Router.empty model FilterArg.undefined).run req w
    ∧ (addDeleteRoute Router.empty model (FilterArg.fn passThrough)).run req w
        = (addDeleteRoute Router.empty model FilterArg.undefined).run req w := by
  refine ⟨?_, ?_, ?_, ?_⟩
  · simp [addGetRoute, addGetRoute.filterAndHandleRequest, Router.run, Router.get, Router.empty,
      FilterArg.truthy, callFilter, passThrough]
  · simp [addPostRoute, Router.run, Router.post, Router.empty, isFunction, callFilter, passThrough]
  · simp [addPutRoute, Router.run, Router.put, Router.empty, isFunction, callFilter, passThrough]
  · simp [addDeleteRoute, addDeleteRoute.filterAndHandleRequest, Router.run, Router.delete,
      Router.empty, FilterArg.truthy, callFilter, passThrough]

/-- C1, the list route: `addGetAllRoute` calls the filter as `filter(req, res)`, with
no downstream handler. The pass-through middleware then calls an undefined callback:
the handler throws, never calls `model.find` and sends nothing, so its log differs
from the log of the route registered with no filter. -/
theorem addGetAllRoute_passThrough_differs (model : Model) (fields : Projection) (req : Req)
    (w : World) :
    (addGetAllRoute Router.empty model fields (FilterArg.fn passThrough)).run req w
        = [(Verb.GET, "/", w ++ [Event.throwTypeError "callback is not a function"])]
    ∧ (addGetAllRoute Router.empty model fields (FilterArg.fn passThrough)).run req w
        ≠ (addGetAllRoute Router.empty model fields FilterArg.undefined).run req w := by
  have hf : (addGetAllRoute Router.empty model fields (FilterArg.fn passThrough)).run req w
      = [(Verb.GET, "/", w ++ [Event.throwTypeError "callback is not a function"])] := by
    simp [addGetAllRoute, addGetAllRoute.filterAndHandleRequest, Router.run, Router.get,
      Router.empty, FilterArg.truthy, callFilter, passThrough]
  refine ⟨hf, ?_⟩
  rw [hf]
  rcases hfind : model.find [] fields with ⟨err, items⟩
  cases err <;>
    simp [addGetAllRoute, addGetAllRoute.handleRequest, Router.run, Router.get, Router.empty,
      FilterArg.truthy, hfind]

/-! ## Array filters -/

/-- An array filter only adds a console line in front of the unfiltered handler. -/
theorem array_filter_only_logs (model : Model) (allowed : List String) (req : Req) (w : World) :
    (addPostRoute Router.empty model (FilterArg.array allowed)).run req w
        = (addPostRoute Router.empty model FilterArg.undefined).run req
            (w ++ [Event.consoleLog ("filtering " ++ ",".intercalate (objectKeys req.body))])
    ∧ (addPutRoute Router.empty model (FilterArg.array allowed)).run req w
        = (addPutRoute Router.empty model FilterArg.undefined).run req
            (w ++ [Event.consoleLog ("filtering " ++ ",".intercalate (objectKeys req.body))]) := by
  constructor
  · simp [addPostRoute, Router.run, Router.post, Router.empty, isFunction, filterByArray]
  · simp [addPutRoute, Router.run, Router.put, Router.empty, isFunction, filterByArray]

/-- C2, at schema `username, age`, whitelist `username` and body
`username: al, age: 9, hacker: true`: the record saved by POST and by PUT carries
`age`, a body key outside the whitelist; `filterByArray` strips nothing. -/
theorem filterByArray_strips_nothing :
    (addPostRoute Router.empty sampleModel (FilterArg.array ["username"])).run sampleReq []
        = [(Verb.POST, "/",
            [Event.consoleLog "filtering username,age,hacker",
             Event.save [("username", Val.str "al"), ("age", Val.num 9)],
             Event.json (Body.stringified [("username", Val.str "al"), ("age", Val.num 9)])])]
    ∧ (addPutRoute Router.empty storedModel (FilterArg.array ["username"])).run sampleReq []
        = [(Verb.PUT, "/:_id",
            [Event.consoleLog "filtering username,age,hacker",
             Event.findById (some "57e92092d742a006e8b4d99a"),
             Event.save [("username", Val.str "al"), ("age", Val.num 9)],
             Event.json (Body.stringified [("username", Val.str "al"), ("age", Val.num 9)])])] := by
  constructor <;> rfl

/-! ## Copying body fields onto a record -/

/-- C3, at schema `username, age` and body `hasOwnProperty: 1, username: al`: the
call `data.hasOwnProperty(property)` finds the body's own number instead of the
built-in and throws, so `setPropertiesBySchema` writes nothing, and the POST handler
(and the PUT handler after its lookup) ends with an uncaught TypeError and no
`save`, although `username` is a schema field present in the body. -/
theorem setPropertiesBySchema_shadowed_body :
    setPropertiesBySchema sampleModel sampleModel.blank shadowReq.body
        = Except.error "data.hasOwnProperty is not a function"
    ∧ (addPostRoute Router.empty sampleModel FilterArg.undefined).run shadowReq []
        = [(Verb.POST, "/", [Event.throwTypeError "data.hasOwnProperty is not a function"])]
    ∧ (addPutRoute Router.empty storedModel FilterArg.undefined).run shadowReq []
        = [(Verb.PUT, "/:_id",
            [Event.findById (some "57e92092d742a006e8b4d99a"),
             Event.throwTypeError "data.hasOwnProperty is not a function"])] := by
  refine ⟨?_, ?_, ?_⟩ <;> rfl

/-! ## Reading one record -/

/-- C4: when the ObjectId constructor rejects the `_id` path parameter, the route of
`addGetRoute` for the key `_id` (omitted or given) answers `sendStatus(400)` and
nothing else: no storage call is added to the log. -/
theorem addGetRoute_malformed_id (mongoose : Mongoose) (model : Model) (fields : Projection)
    (req : Req) (w : World)
    (hbad : mongoose.ObjectId (List.lookup "_id" req.params) = false) :
    (addGetRoute mongoose Router.empty model none fields FilterArg.undefined).run req w
        = [(Verb.GET, "/:_id", w ++ [Event.sendStatus 400])]
    ∧ (addGetRoute mongoose Router.empty model (some "_id") fields FilterArg.undefined).run req w
        = [(Verb.GET, "/:_id", w ++ [Event.sendStatus 400])]
    ∧ storageCalls (w ++ [Event.sendStatus 400]) = storageCalls w := by
  refine ⟨?_, ?_, ?_⟩
  · simp [addGetRoute, addGetRoute.handleRequest, getQueryByParam, getValue, getPath, truthy,
      Router.run, Router.get, Router.empty, FilterArg.truthy, hbad]
  · simp [addGetRoute, addGetRoute.handleRequest, getQueryByParam, getValue, getPath, truthy,
      Router.run, Router.get, Router.empty, FilterArg.truthy, hbad]
  · simp [storageCalls, isStorageCall]

/-- C5: for a non-empty `_id` path parameter `v` that the ObjectId constructor
accepts, the route makes one storage call, `findOne` with the filter `_id: v` and
the configured projection; it then answers `json` with what the call yielded (a
record or null), or `status(500).send(err)` when the call reports an error. -/
theorem addGetRoute_valid_id (mongoose : Mongoose) (model : Model) (fields : Projection)
    (req : Req) (w : World) (v : String)
    (hparam : List.lookup "_id" req.params = some v) (hne : v ≠ "")
    (hok : mongoose.ObjectId (some v) = true) :
    (addGetRoute mongoose Router.empty model none fields FilterArg.undefined).run req w
        = [(Verb.GET, "/:_id",
            w ++ [Event.findOne [("_id", Val.str v)] fields] ++
              (match model.findOne [("_id", Val.str v)] fields with
               | (some err, _) => [Event.status 500, Event.send (Body.error err)]
               | (none, items) => [Event.json (Body.item items)]))]
    ∧ (addGetRoute mongoose Router.empty model (some "_id") fields FilterArg.undefined).run req w
        = (addGetRoute mongoose Router.empty model none fields FilterArg.undefined).run req w := by
  constructor
  · rcases hfind : model.findOne [("_id", Val.str v)] fields with ⟨err, items⟩
    cases err <;>
      simp [addGetRoute, addGetRoute.handleRequest, getQueryByParam, getValue, getPath, truthy,
        Val.ofParam, Router.run, Router.get, Router.empty, FilterArg.truthy, hparam, hne, hok,
        hfind]
  · simp [addGetRoute, truthy]

/-! ## Saving -/

/-- C6: when `save` reports an error on the record built from the body, the POST
route answers `status(400).send("duplicate unique id")` if the error code is the
number 11000, whatever else the error holds, and `status(500).send(err)` for every
other code; so does the PUT route once its lookup found a record. Each route is
stated on its own premises. -/
theorem save_error_response (model : Model) (req : Req) (w : World) (found inst : Obj)
    (err : Err) (saved : Obj) :
    (setPropertiesBySchema model model.blank req.body = Except.ok inst →
      model.save inst = (some err, saved) →
      (addPostRoute Router.empty model FilterArg.undefined).run req w
        = [(Verb.POST, "/",
            w ++ [Event.save inst] ++
              (if err.code = Val.num 11000 then
                 [Event.status 400, Event.send (Body.text "duplicate unique id")]
               else [Event.status 500, Event.send (Body.error err)]))])
    ∧ (model.findById (List.lookup "_id" req.params) = (none, some found) →
      setPropertiesBySchema model found req.body = Except.ok inst →
      model.save inst = (some err, saved) →
      (addPutRoute Router.empty model FilterArg.undefined).run req w
        = [(Verb.PUT, "/:_id",
            w ++ [Event.findById (List.lookup "_id" req.params), Event.save inst] ++
              (if err.code = Val.num 11000 then
                 [Event.status 400, Event.send (Body.text "duplicate unique id")]
               else [Event.status 500, Event.send (Body.error err)]))]) := by
  constructor
  · intro hbuilt hsave
    by_cases hc : err.code = Val.num 11000 <;>
      simp [addPostRoute, addPostRoute.setPropertiesAndCreate, saveCallback, Router.run,
        Router.post, Router.empty, isFunction, hbuilt, hsave, hc]
  · intro hfound hbuilt hsave
    by_cases hc : err.code = Val.num 11000 <;>
      simp [addPutRoute, addPutRoute.setPropertiesAndSave, saveCallback, Router.run,
        Router.put, Router.empty, isFunction, hfound, hbuilt, hsave, hc]

/-! ## Deleting -/

/-- C7: for a non-empty `_id` path parameter `v`, the DELETE route calls `remove`
with the filter `_id: v`; it answers `status(500).send(err)` when the call reports
an error, and otherwise `sendStatus(404)` for a removal count of 0 and
`sendStatus(200)` for a count of at least 1. -/
theorem addDeleteRoute_by_count (model : Model) (req : Req) (w : World) (v : String)
    (hparam : List.lookup "_id" req.params = some v) (hne : v ≠ "") :
    (addDeleteRoute Router.empty model FilterArg.undefined).run req w
        = [(Verb.DELETE, "/:_id",
            w ++ [Event.remove [("_id", Val.str v)]] ++
              (match model.remove [("_id", Val.str v)] with
               | (some err, _) => [Event.status 500, Event.send (Body.error err)]
               | (none, n) => if n = 0 then [Event.sendStatus 404] else [Event.sendStatus 200]))] := by
  rcases hrem : model.remove [("_id", Val.str v)] with ⟨err, n⟩
  cases err with
  | some e =>
    simp [addDeleteRoute, addDeleteRoute.handleRequest, truthy, Val.ofParam, Router.run,
      Router.delete, Router.empty, FilterArg.truthy, hparam, hne, hrem]
  | none =>
    by_cases hn : n = 0
    · simp [addDeleteRoute, addDeleteRoute.handleRequest, truthy, Val.ofParam, Router.run,
        Router.delete, Router.empty, FilterArg.truthy, hparam, hne, hrem, hn]
    · have hpos : 0 < n := Nat.pos_of_ne_zero hn
      simp [addDeleteRoute, addDeleteRoute.handleRequest, truthy, Val.ofParam, Router.run,
        Router.delete, Router.empty, FilterArg.truthy, hparam, hne, hrem, hn, hpos]

/-- C9 as stated fails: for a request with no `_id` path parameter the DELETE route
answers `sendStatus(400)` and the log holds no `remove` call. -/
theorem addDeleteRoute_missing_id_no_remove :
    (addDeleteRoute Router.empty sampleModel FilterArg.undefined).run ⟨[], []⟩ []
        = [(Verb.DELETE, "/:_id", [Event.sendStatus 400])]
    ∧ ¬ ∃ query, Event.remove query ∈ addDeleteRoute.handleRequest sampleModel ⟨[], []⟩ [] := by
  constructor
  · rfl
  · rintro ⟨query, hq⟩
    simp [addDeleteRoute.handleRequest, truthy] at hq

/-- C9 amended: for a missing or empty `_id` path parameter the DELETE route answers
`sendStatus(400)` and stops there; the removal sits in the `else` branch, so no
storage call is added to the log. -/
theorem addDeleteRoute_missing_id (model : Model) (req : Req) (w : World)
    (hmissing : truthy (List.lookup "_id" req.params) = false) :
    (addDeleteRoute Router.empty model FilterArg.undefined).run req w
        = [(Verb.DELETE, "/:_id", w ++ [Event.sendStatus 400])]
    ∧ storageCalls (addDeleteRoute.handleRequest model req w) = storageCalls w := by
  constructor
  · simp [addDeleteRoute, addDeleteRoute.handleRequest, Router.run, Router.delete,
      Router.empty, FilterArg.truthy, hmissing]
  · simp [addDeleteRoute.handleRequest, storageCalls, isStorageCall, hmissing]

/-! ## Updating -/

/-- C10: the PUT route hands the `_id` path parameter to `findById` as it is; when
the lookup reports neither an error nor a record, the handler only sets status 404:
no `send`, `sendStatus` or `json` follows, and the lookup is the only storage
call. -/
theorem addPutRoute_not_found (model : Model) (req : Req) (w : World)
    (hnone : model.findById (List.lookup "_id" req.params) = (none, none)) :
    (addPutRoute Router.empty model FilterArg.undefined).run req w
        = [(Verb.PUT, "/:_id",
            w ++ [Event.findById (List.lookup "_id" req.params), Event.status 404])]
    ∧ storageCalls (addPutRoute.setPropertiesAndSave model req w)
        = storageCalls w ++ [Event.findById (List.lookup "_id" req.params)] := by
  constructor
  · simp [addPutRoute, addPutRoute.setPropertiesAndSave, Router.run, Router.put, Router.empty,
      isFunction, hnone]
  · simp [addPutRoute.setPropertiesAndSave, storageCalls, isStorageCall, hnone]

/-! ## The full CRUD surface -/

/-- C8: on an empty route table `addCRUDRoutes` registers five routes, GET `/`,
GET `/:_id`, POST `/`, PUT `/:_id` and DELETE `/:_id`, no two with the same verb and
path. -/
theorem addCRUDRoutes_five_routes (mongoose : Mongoose) (model : Model) :
    (addCRUDRoutes mongoose Router.empty model).keys
        = [(Verb.GET, "/"), (Verb.GET, "/:_id"), (Verb.POST, "/"), (Verb.PUT, "/:_id"),
           (Verb.DELETE, "/:_id")]
    ∧ (addCRUDRoutes mongoose Router.empty model).routes.length = 5
    ∧ (addCRUDRoutes mongoose Router.empty model).keys.Nodup := by
  have hkeys : (addCRUDRoutes mongoose Router.empty model).keys
      = [(Verb.GET, "/"), (Verb.GET, "/:_id"), (Verb.POST, "/"), (Verb.PUT, "/:_id"),
         (Verb.DELETE, "/:_id")] := rfl
  refine ⟨hkeys, rfl, ?_⟩
  rw [hkeys]
  decide

/-! ## The theorems at concrete requests -/

/-- The malformed id `abc` on the sample model: 400 and nothing else. -/
theorem addGetRoute_malformed_id_witness :
    sampleMongoose.ObjectId (List.lookup "_id" [("_id", "abc")]) = false
    ∧ (addGetRoute sampleMongoose Router.empty sampleModel none none FilterArg.undefined).run
        ⟨[("_id", "abc")], []⟩ []
        = [(Verb.GET, "/:_id", [Event.sendStatus 400])] :=
  ⟨by decide,
   (addGetRoute_malformed_id sampleMongoose sampleModel none ⟨[("_id", "abc")], []⟩ []
      (by decide)).1⟩

/-- A 24 character id on the stored model: one `findOne`, then the record as JSON. -/
theorem addGetRoute_valid_id_witness :
    List.lookup "_id" sampleReq.params = some "57e92092d742a006e8b4d99a"
    ∧ sampleMongoose.ObjectId (some "57e92092d742a006e8b4d99a") = true
    ∧ (addGetRoute sampleMongoose Router.empty storedModel none none FilterArg.undefined).run
        sampleReq []
        = [(Verb.GET, "/:_id",
            [Event.findOne [("_id", Val.str "57e92092d742a006e8b4d99a")] none,
             Event.json (Body.item (some [("username", Val.str "bo")]))])] :=
  ⟨by decide, by decide,
   (addGetRoute_valid_id sampleMongoose storedModel none sampleReq []
     "57e92092d742a006e8b4d99a" (by decide) (by decide) (by decide)).1⟩

/-- A duplicate-key rejection answers 400 and a rejection with another code answers
500 with the error: on POST where every save is rejected, and on PUT of a stored
record on a model where a create from the same body succeeds. -/
theorem save_error_response_witness :
    (addPostRoute Router.empty (rejectingModel ⟨Val.num 11000, "E11000 username"⟩)
          FilterArg.undefined).run sampleReq []
        = [(Verb.POST, "/",
            [Event.save [("username", Val.str "al"), ("age", Val.num 9)],
             Event.status 400, Event.send (Body.text "duplicate unique id")])]
    ∧ (addPostRoute Router.empty (rejectingModel ⟨Val.num 66, "immutable"⟩)
          FilterArg.undefined).run sampleReq []
        = [(Verb.POST, "/",
            [Event.save [("username", Val.str "al"), ("age", Val.num 9)],
             Event.status 500, Event.send (Body.error ⟨Val.num 66, "immutable"⟩)])]
    ∧ (addPutRoute Router.empty (updateRejectingModel ⟨Val.num 11000, "E11000 username"⟩)
          FilterArg.undefined).run sampleReq []
        = [(Verb.PUT, "/:_id",
            [Event.findById (some "57e92092d742a006e8b4d99a"),
             Event.save [("_id", Val.str "57e92092d742a006e8b4d99a"),
               ("username", Val.str "al"), ("age", Val.num 9)],
             Event.status 400, Event.send (Body.text "duplicate unique id")])]
    ∧ (addPutRoute Router.empty (updateRejectingModel ⟨Val.num 66, "immutable"⟩)
          FilterArg.undefined).run sampleReq []
        = [(Verb.PUT, "/:_id",
            [Event.findById (some "57e92092d742a006e8b4d99a"),
             Event.save [("_id", Val.str "57e92092d742a006e8b4d99a"),
               ("username", Val.str "al"), ("age", Val.num 9)],
             Event.status 500, Event.send (Body.error ⟨Val.num 66, "immutable"⟩)])]
    ∧ (addPostRoute Router.empty (updateRejectingModel ⟨Val.num 11000, "E11000 username"⟩)
          FilterArg.undefined).run sampleReq []
        = [(Verb.POST, "/",
            [Event.save [("username", Val.str "al"), ("age", Val.num 9)],
             Event.json (Body.stringified [("username", Val.str "al"), ("age", Val.num 9)])])] :=
  ⟨(save_error_response (rejectingModel ⟨Val.num 11000, "E11000 username"⟩) sampleReq [] []
      [("username", Val.str "al"), ("age", Val.num 9)] ⟨Val.num 11000, "E11000 username"⟩
      [("username", Val.str "al"), ("age", Val.num 9)]).1 rfl rfl,
   (save_error_response (rejectingModel ⟨Val.num 66, "immutable"⟩) sampleReq [] []
      [("username", Val.str "al"), ("age", Val.num 9)] ⟨Val.num 66, "immutable"⟩
      [("username", Val.str "al"), ("age", Val.num 9)]).1 rfl rfl,
   (save_error_response (updateRejectingModel ⟨Val.num 11000, "E11000 username"⟩) sampleReq []
      [("_id", Val.str "57e92092d742a006e8b4d99a"), ("username", Val.str "bo")]
      [("_id", Val.str "57e92092d742a006e8b4d99a"), ("username", Val.str "al"),
        ("age", Val.num 9)]
      ⟨Val.num 11000, "E11000 username"⟩
      [("_id", Val.str "57e92092d742a006e8b4d99a"), ("username", Val.str "al"),
        ("age", Val.num 9)]).2 rfl rfl rfl,
   (save_error_response (updateRejectingModel ⟨Val.num 66, "immutable"⟩) sampleReq []
      [("_id", Val.str "57e92092d742a006e8b4d99a"), ("username", Val.str "bo")]
      [("_id", Val.str "57e92092d742a006e8b4d99a"), ("username", Val.str "al"),
        ("age", Val.num 9)]
      ⟨Val.num 66, "immutable"⟩
      [("_id", Val.str "57e92092d742a006e8b4d99a"), ("username", Val.str "al"),
        ("age", Val.num 9)]).2 rfl rfl rfl,
   rfl⟩

/-- Removal count 1 answers 200, removal count 0 answers 404. -/
theorem addDeleteRoute_by_count_witness :
    (addDeleteRoute Router.empty storedModel FilterArg.undefined).run sampleReq []
        = [(Verb.DELETE, "/:_id",
            [Event.remove [("_id", Val.str "57e92092d742a006e8b4d99a")], Event.sendStatus 200])]
    ∧ (addDeleteRoute Router.empty sampleModel FilterArg.undefined).run sampleReq []
        = [(Verb.DELETE, "/:_id",
            [Event.remove [("_id", Val.str "57e92092d742a006e8b4d99a")], Event.sendStatus 404])] :=
  ⟨addDeleteRoute_by_count storedModel sampleReq [] "57e92092d742a006e8b4d99a" (by decide)
      (by decide),
   addDeleteRoute_by_count sampleModel sampleReq [] "57e92092d742a006e8b4d99a" (by decide)
      (by decide)⟩

/-- An empty `_id` on the stored model: 400 and no removal. -/
theorem addDeleteRoute_missing_id_witness :
    truthy (List.lookup "_id" [("_id", "")]) = false
    ∧ (addDeleteRoute Router.empty storedModel FilterArg.undefined).run ⟨[("_id", "")], []⟩ []
        = [(Verb.DELETE, "/:_id", [Event.sendStatus 400])] :=
  ⟨by decide,
   (addDeleteRoute_missing_id storedModel ⟨[("_id", "")], []⟩ [] (by decide)).1⟩

/-- An unknown id on the empty collection: the lookup, then status 404 alone. -/
theorem addPutRoute_not_found_witness :
    sampleModel.findById (List.lookup "_id" sampleReq.params) = (none, none)
    ∧ (addPutRoute Router.empty sampleModel FilterArg.undefined).run sampleReq []
        = [(Verb.PUT, "/:_id",
            [Event.findById (some "57e92092d742a006e8b4d99a"), Event.status 404])] :=
  ⟨rfl, (addPutRoute_not_found sampleModel sampleReq [] rfl).1⟩

end AutoCrud
